import Mathlib

/-!
Verification of the gtfs-realtime-archiver core against its source.

The Python sources under `src/src/gtfs_rt_archiver` and
`src/src/dagster_pipeline` are shallowly embedded below: pure functions
become Lean functions, stateful or fallible code returns `Except`
values together with an explicit store, and library behaviour
(`base64`, `tenacity`, `httpx`, pydantic attribute access) is modelled
by small executable definitions that follow the documented semantics of
those libraries.  Machine floats that no claim inspects are modelled as
rationals; Python byte strings are lists of naturals below 256.
-/

namespace GtfsRt

/-! ### base64url (Python `base64.urlsafe_b64encode` / `urlsafe_b64decode`)

`base64.urlsafe_b64encode` is standard base64 over the alphabet
`A-Z a-z 0-9` with `+` replaced by `-` and `/` replaced by `_`.
The repository always strips the `=` padding right after encoding
(storage.py line 35, compaction.py line 33), so the encoder below
produces the unpadded form directly: a group of 3 input bytes yields 4
alphabet characters, a trailing group of 2 bytes yields 3 characters,
and a trailing single byte yields 2 characters.  The decoder first
restores the padding exactly as `decode_base64url` (compaction.py lines
25-28) does and then consumes 4-character groups, treating `=` as the
end of data, which is the behaviour of `base64.urlsafe_b64decode` on
well-formed input. -/

def b64urlAlphabet : List Char :=
  "ABCDEFGHIJKLMNOPQRSTUVWXYZabcdefghijklmnopqrstuvwxyz0123456789-_".toList

def b64char (n : Nat) : Char := b64urlAlphabet.getD n 'A'

def indexInAux (c : Char) : List Char → Nat → Option Nat
  | [], _ => none
  | d :: ds, i => if d = c then some i else indexInAux c ds (i + 1)

def b64val (c : Char) : Option Nat := indexInAux c b64urlAlphabet 0

/-- Unpadded base64url encoding of a byte sequence: the composition of
`base64.urlsafe_b64encode` with `.rstrip("=")` / `.rstrip(b"=")`. -/
def encodeB64urlNoPad : List Nat → List Char
  | b0 :: b1 :: b2 :: rest =>
      b64char (b0 / 4) :: b64char (b0 % 4 * 16 + b1 / 16) ::
        b64char (b1 % 16 * 4 + b2 / 64) :: b64char (b2 % 64) :: encodeB64urlNoPad rest
  | [b0, b1] => [b64char (b0 / 4), b64char (b0 % 4 * 16 + b1 / 16), b64char (b1 % 16 * 4)]
  | [b0] => [b64char (b0 / 4), b64char (b0 % 4 * 16)]
  | [] => []

/-- The padding step of `decode_base64url` (compaction.py lines 25-28):
`encoded + "=" * (4 - len(encoded) % 4) if len(encoded) % 4 else encoded`. -/
def padB64 (cs : List Char) : List Char :=
  if cs.length % 4 = 0 then cs else cs ++ List.replicate (4 - cs.length % 4) '='

/-- `base64.urlsafe_b64decode` on a padded input: 4-character groups are
turned into 3 bytes; a group ending in `=` closes the data with 1 or 2
final bytes. -/
def decodeB64urlPadded : List Char → List Nat
  | c0 :: c1 :: c2 :: c3 :: rest =>
      let s0 := (b64val c0).getD 0
      let s1 := (b64val c1).getD 0
      if c2 = '=' then [s0 * 4 + s1 / 16]
      else
        let s2 := (b64val c2).getD 0
        if c3 = '=' then [s0 * 4 + s1 / 16, s1 % 16 * 16 + s2 / 4]
        else
          let s3 := (b64val c3).getD 0
          (s0 * 4 + s1 / 16) :: (s1 % 16 * 16 + s2 / 4) :: (s2 % 4 * 64 + s3) ::
            decodeB64urlPadded rest
  | _ => []

/-- `decode_base64url` (compaction.py lines 25-28), at the level of the
byte sequence it returns: pad, then base64-decode. -/
def decode_base64url (cs : List Char) : List Nat := decodeB64urlPadded (padB64 cs)

/-- `encode_base64url` (compaction.py lines 31-33), at the level of the
byte sequence it consumes: base64url-encode, padding stripped. -/
def encode_base64url (bs : List Nat) : List Char := encodeB64urlNoPad bs

theorem b64val_b64char (n : Nat) (h : n < 64) : b64val (b64char n) = some n := by
  have hfin : ∀ m : Fin 64, b64val (b64char m.val) = some m.val := by decide
  exact hfin ⟨n, h⟩

theorem b64char_ne_eq (n : Nat) : b64char n ≠ '=' := by
  by_cases h : n < 64
  · have hfin : ∀ m : Fin 64, b64char m.val ≠ '=' := by decide
    exact hfin ⟨n, h⟩
  · have hlen : b64urlAlphabet.length = 64 := by decide
    unfold b64char
    rw [List.getD_eq_default]
    · decide
    · omega

theorem decodeB64urlPadded_cons4 (c0 c1 c2 c3 : Char) (t : List Char)
    (h2 : c2 ≠ '=') (h3 : c3 ≠ '=') :
    decodeB64urlPadded (c0 :: c1 :: c2 :: c3 :: t) =
      ((b64val c0).getD 0 * 4 + (b64val c1).getD 0 / 16) ::
        ((b64val c1).getD 0 % 16 * 16 + (b64val c2).getD 0 / 4) ::
        ((b64val c2).getD 0 % 4 * 64 + (b64val c3).getD 0) ::
        decodeB64urlPadded t := by
  simp only [decodeB64urlPadded]
  rw [if_neg h2, if_neg h3]

theorem decodeB64urlPadded_final2 (c0 c1 c2 : Char) (h2 : c2 ≠ '=') :
    decodeB64urlPadded [c0, c1, c2, '='] =
      [(b64val c0).getD 0 * 4 + (b64val c1).getD 0 / 16,
       (b64val c1).getD 0 % 16 * 16 + (b64val c2).getD 0 / 4] := by
  simp only [decodeB64urlPadded]
  rw [if_neg h2]
  simp

theorem decodeB64urlPadded_final1 (c0 c1 : Char) :
    decodeB64urlPadded [c0, c1, '=', '='] =
      [(b64val c0).getD 0 * 4 + (b64val c1).getD 0 / 16] := by
  simp only [decodeB64urlPadded]
  simp

theorem padB64_cons4 (c0 c1 c2 c3 : Char) (t : List Char) :
    padB64 (c0 :: c1 :: c2 :: c3 :: t) = c0 :: c1 :: c2 :: c3 :: padB64 t := by
  unfold padB64
  have hmod : (t.length + 1 + 1 + 1 + 1) % 4 = t.length % 4 := by omega
  simp only [List.length_cons, hmod]
  by_cases hm : t.length % 4 = 0
  · simp [hm]
  · have : (4 : Nat) - t.length % 4 = 4 - t.length % 4 := rfl
    simp [hm, List.cons_append]

theorem decode_encode_aux (bs : List Nat) (h : ∀ b ∈ bs, b < 256) :
    decodeB64urlPadded (padB64 (encodeB64urlNoPad bs)) = bs := by
  induction bs using encodeB64urlNoPad.induct with
  | case1 b0 b1 b2 rest ih =>
      have hb0 : b0 < 256 := h b0 (by simp)
      have hb1 : b1 < 256 := h b1 (by simp)
      have hb2 : b2 < 256 := h b2 (by simp)
      have hrest : ∀ b ∈ rest, b < 256 := fun b hb => h b (by simp [hb])
      have ihr := ih hrest
      have h0 : b64val (b64char (b0 / 4)) = some (b0 / 4) :=
        b64val_b64char _ (by omega)
      have h1 : b64val (b64char (b0 % 4 * 16 + b1 / 16)) =
          some (b0 % 4 * 16 + b1 / 16) := b64val_b64char _ (by omega)
      have h2 : b64val (b64char (b1 % 16 * 4 + b2 / 64)) =
          some (b1 % 16 * 4 + b2 / 64) := b64val_b64char _ (by omega)
      have h3 : b64val (b64char (b2 % 64)) = some (b2 % 64) :=
        b64val_b64char _ (by omega)
      show decodeB64urlPadded (padB64
        (b64char (b0 / 4) :: b64char (b0 % 4 * 16 + b1 / 16) ::
          b64char (b1 % 16 * 4 + b2 / 64) :: b64char (b2 % 64) ::
          encodeB64urlNoPad rest)) = b0 :: b1 :: b2 :: rest
      rw [padB64_cons4,
        decodeB64urlPadded_cons4 _ _ _ _ _ (b64char_ne_eq _) (b64char_ne_eq _),
        ihr, h0, h1, h2, h3]
      simp only [Option.getD_some]
      have e0 : b0 / 4 * 4 + (b0 % 4 * 16 + b1 / 16) / 16 = b0 := by omega
      have e1 : (b0 % 4 * 16 + b1 / 16) % 16 * 16 + (b1 % 16 * 4 + b2 / 64) / 4 = b1 := by
        omega
      have e2 : (b1 % 16 * 4 + b2 / 64) % 4 * 64 + b2 % 64 = b2 := by omega
      rw [e0, e1, e2]
  | case2 b0 b1 =>
      have hb0 : b0 < 256 := h b0 (by simp)
      have hb1 : b1 < 256 := h b1 (by simp)
      have h0 : b64val (b64char (b0 / 4)) = some (b0 / 4) :=
        b64val_b64char _ (by omega)
      have h1 : b64val (b64char (b0 % 4 * 16 + b1 / 16)) =
          some (b0 % 4 * 16 + b1 / 16) := b64val_b64char _ (by omega)
      have h2 : b64val (b64char (b1 % 16 * 4)) = some (b1 % 16 * 4) :=
        b64val_b64char _ (by omega)
      have hpad : padB64 (encodeB64urlNoPad [b0, b1]) =
          [b64char (b0 / 4), b64char (b0 % 4 * 16 + b1 / 16), b64char (b1 % 16 * 4), '='] := by
        rfl
      rw [hpad, decodeB64urlPadded_final2 _ _ _ (b64char_ne_eq _), h0, h1, h2]
      simp only [Option.getD_some]
      have e0 : b0 / 4 * 4 + (b0 % 4 * 16 + b1 / 16) / 16 = b0 := by omega
      have e1 : (b0 % 4 * 16 + b1 / 16) % 16 * 16 + b1 % 16 * 4 / 4 = b1 := by omega
      rw [e0, e1]
  | case3 b0 =>
      have hb0 : b0 < 256 := h b0 (by simp)
      have h0 : b64val (b64char (b0 / 4)) = some (b0 / 4) :=
        b64val_b64char _ (by omega)
      have h1 : b64val (b64char (b0 % 4 * 16)) = some (b0 % 4 * 16) :=
        b64val_b64char _ (by omega)
      have hpad : padB64 (encodeB64urlNoPad [b0]) =
          [b64char (b0 / 4), b64char (b0 % 4 * 16), '=', '='] := by
        rfl
      rw [hpad, decodeB64urlPadded_final1, h0, h1]
      simp only [Option.getD_some]
      have e0 : b0 / 4 * 4 + b0 % 4 * 16 / 16 = b0 := by omega
      rw [e0]
  | case4 => rfl

theorem roundtrip_b64 (bs : List Nat) (h : ∀ b ∈ bs, b < 256) :
    decode_base64url (encode_base64url bs) = bs :=
  decode_encode_aux bs h

/-! ### URL canonicalisation for compactor partition keys
(compaction.py lines 36-66).  Python strings are modelled as lists of
characters; `str.startswith(p)` is `take p.length = p.toList`. -/

def url_to_partition_key (url : List Char) : List Char :=
  if url.take 7 = "http://".toList then '~' :: url.drop 7
  else if url.take 8 = "https://".toList then url.drop 8
  else url

def partition_key_to_url (key : List Char) : List Char :=
  if key.take 1 = ['~'] then "http://".toList ++ key.drop 1
  else "https://".toList ++ key

/-- A string is a usable HTTP or HTTPS URL for the partition-key
bijection: it carries one of the two schemes, and after `https://` the
authority does not begin with `~` (no valid host name starts with `~`,
so every real HTTPS URL satisfies this). -/
def validHttpUrl (u : List Char) : Bool :=
  decide (u.take 7 = "http://".toList) ||
    (decide (u.take 8 = "https://".toList) && !decide ((u.drop 8).take 1 = ['~']))

/-- C8: `partition_key_to_url` is a left inverse of
`url_to_partition_key` on valid HTTP/HTTPS URLs (HTTPS maps to the bare
host+path, HTTP to the same prefixed with `~`), and `decode_base64url`
inverts `encode_base64url` on every byte sequence (every UTF-8 encoded
string) with the `+`/`-` and `/`/`_` substitution, padding stripped by
the encoder and restored by the decoder. -/
theorem c8_partition_key_roundtrip :
    (∀ u : List Char, validHttpUrl u = true →
      partition_key_to_url (url_to_partition_key u) = u) ∧
    (∀ bs : List Nat, (∀ b ∈ bs, b < 256) →
      decode_base64url (encode_base64url bs) = bs) := by
  constructor
  · intro u hu
    unfold validHttpUrl at hu
    simp only [Bool.or_eq_true, Bool.and_eq_true, Bool.not_eq_true',
      decide_eq_true_eq, decide_eq_false_iff_not] at hu
    rcases hu with h7 | ⟨h8, hn⟩
    · unfold url_to_partition_key
      rw [if_pos h7]
      unfold partition_key_to_url
      rw [if_pos (by simp)]
      simp only [List.drop_succ_cons, List.drop_zero]
      rw [← h7, List.take_append_drop]
    · have h7 : u.take 7 = "https:/".toList := by
        have hmin : (u.take 8).take 7 = u.take 7 := by
          rw [List.take_take]
          norm_num
        rw [← hmin, h8]
        rfl
      unfold url_to_partition_key
      rw [if_neg (by rw [h7]; decide), if_pos h8]
      unfold partition_key_to_url
      rw [if_neg hn, ← h8, List.take_append_drop]
  · exact roundtrip_b64

/-- Witness for C8 at a concrete HTTPS URL and a concrete byte string. -/
theorem c8_partition_key_roundtrip_witness :
    partition_key_to_url (url_to_partition_key "https://example.com/feed".toList) =
      "https://example.com/feed".toList ∧
    decode_base64url (encode_base64url [104, 116, 116, 112]) = [104, 116, 116, 112] :=
  ⟨c8_partition_key_roundtrip.1 _ (by decide),
   c8_partition_key_roundtrip.2 _ (by decide)⟩

/-! ### Configuration data model (models.py)

`FeedType`, `AuthType`, `AuthConfig`, `RetryConfig` and the flattened
runtime `FeedConfig` (models.py lines 9-144).  Pydantic URL values are
modelled as plain strings; numeric range constraints reappear as the
validation predicates used for claim C9 below. -/

inductive FeedType where
  | vehicle_positions
  | trip_updates
  | service_alerts
  deriving DecidableEq

def FeedType.value : FeedType → String
  | .vehicle_positions => "vehicle_positions"
  | .trip_updates => "trip_updates"
  | .service_alerts => "service_alerts"

inductive AuthType where
  | header
  | query
  deriving DecidableEq

structure AuthConfig where
  type : AuthType
  secret_name : String
  key : String
  value : Option String := none
  resolved_value : Option String := none
  deriving DecidableEq

structure RetryConfig where
  max_attempts : Nat := 3
  backoff_base : ℚ := 1
  backoff_max : ℚ := 10
  deriving DecidableEq

structure FeedConfig where
  id : String
  name : String
  url : String
  feed_type : FeedType
  agency_id : String
  agency_name : String
  system_id : Option String := none
  system_name : Option String := none
  schedule_url : Option String := none
  interval_seconds : Nat := 20
  timeout_seconds : Nat := 30
  retry : RetryConfig := {}
  auth : Option AuthConfig := none
  deriving DecidableEq

/-- The field names declared on the pydantic model `FeedConfig`
(models.py lines 124-144). -/
def feedConfigFields : List String :=
  ["id", "name", "url", "feed_type", "agency_id", "agency_name", "system_id",
   "system_name", "schedule_url", "interval_seconds", "timeout_seconds",
   "retry", "auth"]

/-- Python exceptions that the embedded code can raise. -/
inductive PyError where
  | attributeError (attr : String)
  | typeError (msg : String)
  | uploadError
  deriving DecidableEq

/-! ### UTC datetimes and the strftime fragments storage.py uses -/

/-- A `datetime.datetime` in UTC (all archiver timestamps carry
`tzinfo=UTC`). -/
structure Datetime where
  year : Nat
  month : Nat
  day : Nat
  hour : Nat
  minute : Nat
  second : Nat
  microsecond : Nat
  deriving DecidableEq

/-- Zero-padded decimal rendering, as the fixed-width strftime
directives produce. -/
def padNum (w n : Nat) : String :=
  let s := toString n
  String.mk (List.replicate (w - s.length) '0') ++ s

/-- strftime `%Y-%m-%d`. -/
def strftimeDate (t : Datetime) : String :=
  padNum 4 t.year ++ "-" ++ padNum 2 t.month ++ "-" ++ padNum 2 t.day

/-- strftime `%Y-%m-%dT%H:%M:%S.%f`. -/
def strftimeFull (t : Datetime) : String :=
  strftimeDate t ++ "T" ++ padNum 2 t.hour ++ ":" ++ padNum 2 t.minute ++ ":" ++
    padNum 2 t.second ++ "." ++ padNum 6 t.microsecond

/-- Python slicing `s[:-3]`. -/
def dropLast3 (s : String) : String :=
  String.mk (s.toList.take (s.toList.length - 3))

/-- `datetime.isoformat()` for a UTC-aware datetime: the seconds
fraction is printed only when the microsecond field is nonzero, and the
UTC offset is rendered `+00:00`. -/
def Datetime.isoformat (t : Datetime) : String :=
  strftimeDate t ++ "T" ++ padNum 2 t.hour ++ ":" ++ padNum 2 t.minute ++ ":" ++
    padNum 2 t.second ++
    (if t.microsecond = 0 then "" else "." ++ padNum 6 t.microsecond) ++ "+00:00"

/-- UTF-8 encoding of one character (the byte values of
`String.utf8EncodeChar`, written with explicit division so concrete
strings evaluate in the kernel). -/
def utf8EncodeCharNat (c : Char) : List Nat :=
  let v := c.toNat
  if v ≤ 0x7f then [v]
  else if v ≤ 0x7ff then [0xc0 + v / 64, 0x80 + v % 64]
  else if v ≤ 0xffff then [0xe0 + v / 4096, 0x80 + v / 64 % 64, 0x80 + v % 64]
  else [0xf0 + v / 262144, 0x80 + v / 4096 % 64, 0x80 + v / 64 % 64, 0x80 + v % 64]

/-- The UTF-8 byte sequence of a Python string (`url.encode("utf-8")`). -/
def utf8Bytes (s : String) : List Nat := s.data.flatMap utf8EncodeCharNat

/-- `FetchResult` (fetcher.py lines 27-51): result of a successful feed
fetch.  `headers` is the httpx header mapping (httpx normalises header
names to lower case). -/
structure FetchResult where
  content : List Nat
  headers : List (String × String)
  status_code : Nat
  fetch_timestamp : Datetime
  duration_ms : ℚ
  content_length : Nat
  deriving DecidableEq

/-- The `content_type` property (fetcher.py lines 38-41):
`self.headers.get("content-type")`. -/
def FetchResult.content_type (r : FetchResult) : Option String :=
  (r.headers.find? (fun kv => kv.1 = "content-type")).map Prod.snd

/-! ### storage.py -/

/-- `urllib.parse.urlencode` restricted to what storage.py can feed it;
the repository never reaches this branch (see
`feedConfigReadQueryParams`), so percent-escaping is not modelled. -/
def urlencode (ps : List (String × String)) : String :=
  String.intercalate "&" (ps.map fun p => p.1 ++ "=" ++ p.2)

/-- `encode_url_to_base64url` (storage.py lines 19-35). -/
def encode_url_to_base64url (url : String)
    (query_params : Option (List (String × String))) : String :=
  let full_url :=
    match query_params with
    | some ps => if ps.isEmpty then url else url ++ "?" ++ urlencode ps
    | none => url
  String.mk (encodeB64urlNoPad (utf8Bytes full_url))

/-- The attribute read `feed.query_params` performed by
`generate_storage_path` (storage.py line 68).  `FeedConfig`
(models.py lines 124-144) declares no field named `query_params`, and a
pydantic v2 model raises `AttributeError` when an undeclared attribute
is read, so the read raises; the `ok` branch is unreachable. -/
def feedConfigReadQueryParams (_feed : FeedConfig) :
    Except PyError (Option (List (String × String))) :=
  if feedConfigFields.contains "query_params" then .ok none
  else .error (.attributeError "query_params")

/-- `generate_storage_path` (storage.py lines 38-80).  The result is
`Except` because the body reads `feed.query_params` (line 68), an
attribute `FeedConfig` does not declare. -/
def generate_storage_path (feed : FeedConfig) (timestamp : Datetime)
    (extension : String) : Except PyError String := do
  let timestamp_str := dropLast3 (strftimeFull timestamp) ++ "Z"
  let date_str := strftimeDate timestamp
  let hour_str := strftimeDate timestamp ++ "T" ++ padNum 2 timestamp.hour ++ ":00:00Z"
  let qp ← feedConfigReadQueryParams feed
  -- `feed.query_params if feed.query_params else None` (truthiness)
  let url_encoded := encode_url_to_base64url feed.url
    (match qp with
     | some ps => if ps.isEmpty then none else some ps
     | none => none)
  pure (String.intercalate "/"
    [feed.feed_type.value, "date=" ++ date_str, "hour=" ++ hour_str,
     "base64url=" ++ url_encoded, timestamp_str ++ "." ++ extension])

/-- `generate_storage_path` as the repository tests require it to
behave (test_storage.py, class TestGenerateStoragePath): the
`feed.query_params` read evaluates to no parameters instead of raising.
Used only to exhibit the key the intended code computes. -/
def generate_storage_path_fixed (feed : FeedConfig) (timestamp : Datetime)
    (extension : String) : String :=
  let timestamp_str := dropLast3 (strftimeFull timestamp) ++ "Z"
  let date_str := strftimeDate timestamp
  let hour_str := strftimeDate timestamp ++ "T" ++ padNum 2 timestamp.hour ++ ":00:00Z"
  let url_encoded := encode_url_to_base64url feed.url none
  String.intercalate "/"
    [feed.feed_type.value, "date=" ++ date_str, "hour=" ++ hour_str,
     "base64url=" ++ url_encoded, timestamp_str ++ "." ++ extension]

/-- The feed of scenario S1: URL `https://gtfs.example.com/rt`,
feed type vehicle_positions. -/
def feedC1 : FeedConfig :=
  { id := "example-vehicle-positions"
  , name := "Example Vehicle Positions"
  , url := "https://gtfs.example.com/rt"
  , feed_type := .vehicle_positions
  , agency_id := "example"
  , agency_name := "Example" }

/-- Fetch time 2025-01-15T14:20:30.123Z. -/
def tsC1 : Datetime := ⟨2025, 1, 15, 14, 20, 30, 123000⟩

/-- C1: the claim says `generate_storage_path(feed, 2025-01-15T14:20:30.123Z, "pb")`
returns the S1 key.  On the code it does not return at all: the
`feed.query_params` read (storage.py line 68) raises `AttributeError`
because `FeedConfig` declares no such field, contradicting the tests in
test_storage.py which expect the key.  With that read patched to give
no parameters, the function produces exactly the key the claim states. -/
theorem c1_generate_storage_path :
    generate_storage_path feedC1 tsC1 "pb" = .error (.attributeError "query_params")
    ∧ generate_storage_path_fixed feedC1 tsC1 "pb" =
      "vehicle_positions/date=2025-01-15/hour=2025-01-15T14:00:00Z/base64url=aHR0cHM6Ly9ndGZzLmV4YW1wbGUuY29tL3J0/2025-01-15T14:20:30.123Z.pb" := by
  constructor
  · rfl
  · decide

/-! ### fetcher.py

`_do_fetch` performs one HTTP attempt; the network is an oracle
(`HttpAttempt`): either a final response (redirects already followed by
httpx) or a transport/timeout failure raised by `client.get`.  The
request construction (fetcher.py lines 112-147: auth header/parameter
merging) affects only what is sent, not the classification any claim is
about, and is not modelled.  `httpx.Response.raise_for_status` raises
`HTTPStatusError` exactly when the status code is not a 2xx success
code. -/

inductive FetchErr where
  | nonRetryable (status_code : Nat)
  | httpStatusError (status_code : Nat)
  | transportError
  | timeoutException
  deriving DecidableEq

/-- fetcher.py lines 54-61. -/
def NON_RETRYABLE_STATUS_CODES : List Nat := [400, 401, 403, 404, 410]

/-- `retry_if_exception_type(RETRYABLE_EXCEPTIONS)` (fetcher.py lines
63-68, 86): `TransportError`, `TimeoutException` and `HTTPStatusError`
are retryable, `NonRetryableError` is not. -/
def isRetryableExcType : FetchErr → Bool
  | .nonRetryable _ => false
  | .httpStatusError _ => true
  | .transportError => true
  | .timeoutException => true

structure HttpResponse where
  status_code : Nat
  headers : List (String × String)
  content : List Nat

inductive HttpAttempt where
  | response (resp : HttpResponse)
  | transportFailure
  | timeoutFailure

/-- `_do_fetch` (fetcher.py lines 91-168), classification of one
attempt.  `fetch_start` and `duration_ms` are the measured wall-clock
values. -/
def _do_fetch (feed : FeedConfig) (attempt : HttpAttempt)
    (fetch_start : Datetime) (duration_ms : ℚ) : Except FetchErr FetchResult :=
  match attempt with
  | .transportFailure => .error .transportError
  | .timeoutFailure => .error .timeoutException
  | .response resp =>
      if resp.status_code ∈ NON_RETRYABLE_STATUS_CODES then
        .error (.nonRetryable resp.status_code)
      else if 200 ≤ resp.status_code ∧ resp.status_code < 300 then
        .ok { content := resp.content
            , headers := resp.headers
            , status_code := resp.status_code
            , fetch_timestamp := fetch_start
            , duration_ms := duration_ms
            , content_length := resp.content.length }
      else .error (.httpStatusError resp.status_code)

/-! ### tenacity

`wait_exponential(multiplier, max)` computes
`max(max(0, min_bound), min(multiplier * 2 ** (attempt_number - 1), max))`
with `min_bound = 0`.  The retry loop is run over an oracle giving each
attempt its outcome; `reraise=True` re-raises the last error unchanged
once `stop_after_attempt` is reached. -/

def wait_exponential (multiplier maxWait : ℚ) (attempt_number : Nat) : ℚ :=
  max (max 0 0) (min (multiplier * 2 ^ (attempt_number - 1)) maxWait)

/-- The tenacity retry loop: `fuel` is the number of attempts still
allowed (initially `stop_after_attempt`), `k` the current attempt
number.  Returns the sleeps performed and the final outcome. -/
def runRetryingAux {ε α : Type} (wait : Nat → ℚ) (retryable : ε → Bool)
    (attempts : Nat → Except ε α) : Nat → Nat → List ℚ × Except ε α
  | 0, k => ([], attempts k)
  | fuel + 1, k =>
      match attempts k with
      | .ok a => ([], .ok a)
      | .error e =>
          if retryable e ∧ 0 < fuel then
            let r := runRetryingAux wait retryable attempts fuel (k + 1)
            (wait k :: r.1, r.2)
          else ([], .error e)

/-- The configuration of the `AsyncRetrying` object (stop, wait, retry
predicate). -/
structure AsyncRetrying where
  max_attempts : Nat
  wait : Nat → ℚ
  retry : FetchErr → Bool

/-- `create_retrying` (fetcher.py lines 71-88):
`stop_after_attempt(feed.retry.max_attempts)`,
`wait_exponential(multiplier=feed.retry.backoff_base,
max=feed.retry.backoff_max)`, retry on the retryable exception types,
`reraise=True`. -/
def create_retrying (feed : FeedConfig) : AsyncRetrying :=
  { max_attempts := feed.retry.max_attempts
  , wait := wait_exponential feed.retry.backoff_base feed.retry.backoff_max
  , retry := isRetryableExcType }

/-- `fetch_feed` (fetcher.py lines 171-197): run the retry loop built
by `create_retrying` over the attempts; `attempts k` is the outcome of
the k-th `_do_fetch` invocation. -/
def fetch_feed (feed : FeedConfig)
    (attempts : Nat → Except FetchErr FetchResult) :
    List ℚ × Except FetchErr FetchResult :=
  runRetryingAux (create_retrying feed).wait (create_retrying feed).retry
    attempts (create_retrying feed).max_attempts 1

theorem runRetryingAux_waits {ε α : Type} (wait : Nat → ℚ)
    (retryable : ε → Bool) (attempts : Nat → Except ε α) :
    ∀ fuel k i, i < (runRetryingAux wait retryable attempts fuel k).1.length →
      (runRetryingAux wait retryable attempts fuel k).1.getD i 0 = wait (k + i) := by
  intro fuel
  induction fuel with
  | zero => intro k i h; simp [runRetryingAux] at h
  | succ n ih =>
      intro k i h
      simp only [runRetryingAux] at h ⊢
      cases hak : attempts k with
      | ok a => simp [hak] at h
      | error e =>
          simp only [hak] at h ⊢
          by_cases hr : retryable e ∧ 0 < n
          · simp only [if_pos hr] at h ⊢
            cases i with
            | zero => simp
            | succ j =>
                simp only [List.getD_cons_succ]
                simp only [List.length_cons, Nat.add_lt_add_iff_right] at h
                rw [ih (k + 1) j h]
                congr 1
                omega
          · simp [if_neg hr] at h

theorem runRetryingAux_exhaust {ε α : Type} (wait : Nat → ℚ)
    (retryable : ε → Bool) (attempts : Nat → Except ε α) :
    ∀ fuel k, 1 ≤ fuel →
      (∀ j, k ≤ j → j < k + fuel → ∃ e, attempts j = .error e ∧ retryable e = true) →
      (runRetryingAux wait retryable attempts fuel k).2 = attempts (k + fuel - 1)
      ∧ (runRetryingAux wait retryable attempts fuel k).1.length = fuel - 1 := by
  intro fuel
  induction fuel with
  | zero => intro k h; omega
  | succ n ih =>
      intro k _ hall
      obtain ⟨e, hek, hre⟩ := hall k (le_refl k) (by omega)
      by_cases hn : n = 0
      · subst hn
        simp [runRetryingAux, hek, hre]
      · have h1n : 1 ≤ n := by omega
        have hall2 : ∀ j, k + 1 ≤ j → j < k + 1 + n →
            ∃ e, attempts j = .error e ∧ retryable e = true := by
          intro j hj1 hj2
          exact hall j (by omega) (by omega)
        have ihr := ih (k + 1) h1n hall2
        simp only [runRetryingAux, hek]
        rw [if_pos ⟨hre, by omega⟩]
        refine ⟨?_, ?_⟩
        · rw [ihr.1]
          congr 1
          omega
        · simp only [List.length_cons, ihr.2]
          omega

/-- C4: `_do_fetch` raises `NonRetryableError(status)` for every final
status in 400, 401, 403, 404, 410 and that error type is excluded from
the retry predicate, so `fetch_feed` re-raises it with no sleeps after
a single attempt; and an attempt yields a `FetchResult` (carrying the
response headers, bytes and the measured duration) exactly when the
final status lies in the interval from 200 inclusive to 300
exclusive. -/
theorem c4_status_classification (feed : FeedConfig) (resp : HttpResponse)
    (fetch_start : Datetime) (duration_ms : ℚ) :
    (resp.status_code ∈ NON_RETRYABLE_STATUS_CODES →
      _do_fetch feed (.response resp) fetch_start duration_ms =
        .error (.nonRetryable resp.status_code)
      ∧ isRetryableExcType (.nonRetryable resp.status_code) = false
      ∧ ∀ attempts : Nat → Except FetchErr FetchResult,
          attempts 1 = .error (.nonRetryable resp.status_code) →
          fetch_feed feed attempts = ([], .error (.nonRetryable resp.status_code)))
    ∧ ((∃ r, _do_fetch feed (.response resp) fetch_start duration_ms = .ok r) ↔
        200 ≤ resp.status_code ∧ resp.status_code < 300)
    ∧ (200 ≤ resp.status_code → resp.status_code < 300 →
        _do_fetch feed (.response resp) fetch_start duration_ms =
          .ok { content := resp.content
              , headers := resp.headers
              , status_code := resp.status_code
              , fetch_timestamp := fetch_start
              , duration_ms := duration_ms
              , content_length := resp.content.length }) := by
  refine ⟨?_, ?_, ?_⟩
  · intro hmem
    refine ⟨by simp [_do_fetch, hmem], rfl, ?_⟩
    intro attempts h1
    unfold fetch_feed create_retrying
    cases hma : feed.retry.max_attempts with
    | zero => simp [runRetryingAux, h1]
    | succ n => simp [runRetryingAux, h1, isRetryableExcType]
  · constructor
    · rintro ⟨r, hr⟩
      unfold _do_fetch at hr
      by_cases hmem : resp.status_code ∈ NON_RETRYABLE_STATUS_CODES
      · simp [hmem] at hr
      · by_cases h2xx : 200 ≤ resp.status_code ∧ resp.status_code < 300
        · exact h2xx
        · simp [hmem, h2xx] at hr
    · intro h2xx
      have hmem : resp.status_code ∉ NON_RETRYABLE_STATUS_CODES := by
        intro hmem
        simp [NON_RETRYABLE_STATUS_CODES] at hmem
        omega
      exact ⟨{ content := resp.content, headers := resp.headers
             , status_code := resp.status_code, fetch_timestamp := fetch_start
             , duration_ms := duration_ms, content_length := resp.content.length },
        by simp [_do_fetch, hmem, h2xx]⟩
  · intro h200 h300
    have hmem : resp.status_code ∉ NON_RETRYABLE_STATUS_CODES := by
      intro hmem
      simp [NON_RETRYABLE_STATUS_CODES] at hmem
      omega
    simp [_do_fetch, hmem, h200, h300]

def respC404 : HttpResponse := { status_code := 404, headers := [], content := [] }

def respC200 : HttpResponse :=
  { status_code := 200, headers := [("content-type", "application/x-protobuf")]
  , content := [10, 20] }

def feedC4 : FeedConfig :=
  { id := "wit-vehicle-positions", name := "Wit", url := "https://wit.example.com/rt"
  , feed_type := .vehicle_positions, agency_id := "wit", agency_name := "Wit" }

def ts0 : Datetime := ⟨2025, 1, 15, 14, 20, 30, 0⟩

/-- Witness for C4 at a 404 response and at a 200 response. -/
theorem c4_status_classification_witness :
    _do_fetch feedC4 (.response respC404) ts0 100 = .error (.nonRetryable 404)
    ∧ _do_fetch feedC4 (.response respC200) ts0 100 =
      .ok { content := [10, 20]
          , headers := [("content-type", "application/x-protobuf")]
          , status_code := 200, fetch_timestamp := ts0, duration_ms := 100
          , content_length := 2 } :=
  ⟨((c4_status_classification feedC4 respC404 ts0 100).1 (by decide)).1,
   (c4_status_classification feedC4 respC200 ts0 100).2.2 (by decide) (by decide)⟩

/-- C5: under `create_retrying`, the sleep after failed retryable
attempt k (the entry at index k-1 of the sleep list) is exactly
`min(backoff_base * 2 ** (k-1), backoff_max)` — the tenacity lower
clamp at 0 vanishes because the pydantic bounds make the argument
nonnegative — and when all `max_attempts` attempts fail retryably the
loop performs `max_attempts - 1` sleeps and re-raises the last error
unchanged (`reraise=True`). -/
theorem c5_retry_schedule (feed : FeedConfig)
    (hbase : (1 : ℚ)/10 ≤ feed.retry.backoff_base)
    (hmax : (1 : ℚ) ≤ feed.retry.backoff_max)
    (attempts : Nat → Except FetchErr FetchResult) :
    (∀ i, i < (fetch_feed feed attempts).1.length →
      (fetch_feed feed attempts).1.getD i 0 =
        min (feed.retry.backoff_base * 2 ^ i) feed.retry.backoff_max)
    ∧ ((∀ k, 1 ≤ k → k ≤ feed.retry.max_attempts →
          ∃ e, attempts k = .error e ∧ isRetryableExcType e = true) →
        1 ≤ feed.retry.max_attempts →
        (fetch_feed feed attempts).2 = attempts feed.retry.max_attempts
        ∧ (fetch_feed feed attempts).1.length = feed.retry.max_attempts - 1) := by
  constructor
  · intro i hi
    have hi2 : i < (runRetryingAux
        (wait_exponential feed.retry.backoff_base feed.retry.backoff_max)
        isRetryableExcType attempts feed.retry.max_attempts 1).1.length := by
      simpa [fetch_feed, create_retrying] using hi
    have hw := runRetryingAux_waits
      (wait_exponential feed.retry.backoff_base feed.retry.backoff_max)
      isRetryableExcType attempts feed.retry.max_attempts 1 i hi2
    have hgoal : (fetch_feed feed attempts).1.getD i 0 =
        wait_exponential feed.retry.backoff_base feed.retry.backoff_max (1 + i) := by
      simpa [fetch_feed, create_retrying] using hw
    rw [hgoal]
    unfold wait_exponential
    have h1 : 1 + i - 1 = i := by omega
    rw [h1]
    have hnn : (0 : ℚ) ≤ min (feed.retry.backoff_base * 2 ^ i) feed.retry.backoff_max := by
      apply le_min
      · positivity
      · linarith
    rw [max_self (0 : ℚ), max_eq_right hnn]
  · intro hall hpos
    have he := runRetryingAux_exhaust
      (wait_exponential feed.retry.backoff_base feed.retry.backoff_max)
      isRetryableExcType attempts feed.retry.max_attempts 1 hpos
      (by intro j hj1 hj2; exact hall j hj1 (by omega))
    constructor
    · show (runRetryingAux
        (wait_exponential feed.retry.backoff_base feed.retry.backoff_max)
        isRetryableExcType attempts feed.retry.max_attempts 1).2 =
          attempts feed.retry.max_attempts
      rw [he.1]
      congr 1
      omega
    · show (runRetryingAux
        (wait_exponential feed.retry.backoff_base feed.retry.backoff_max)
        isRetryableExcType attempts feed.retry.max_attempts 1).1.length =
          feed.retry.max_attempts - 1
      exact he.2

def feedC5 : FeedConfig :=
  { id := "wit5-trip-updates", name := "Wit5", url := "https://wit5.example.com/rt"
  , feed_type := .trip_updates, agency_id := "wit5", agency_name := "Wit5"
  , retry := { max_attempts := 3, backoff_base := 1, backoff_max := 10 } }

def attemptsC5 : Nat → Except FetchErr FetchResult := fun _ => .error .transportError

/-- Witness for C5: three transport failures under
`max_attempts = 3, base = 1, max = 10`. -/
theorem c5_retry_schedule_witness :
    (fetch_feed feedC5 attemptsC5).1.getD 0 0 = min ((1 : ℚ) * 2 ^ 0) 10
    ∧ (fetch_feed feedC5 attemptsC5).2 = attemptsC5 3
    ∧ (fetch_feed feedC5 attemptsC5).1.length = 2 := by
  have h := c5_retry_schedule feedC5 (by norm_num [feedC5]) (by norm_num [feedC5]) attemptsC5
  have hall : ∀ k, 1 ≤ k → k ≤ feedC5.retry.max_attempts →
      ∃ e, attemptsC5 k = .error e ∧ isRetryableExcType e = true :=
    fun k _ _ => ⟨.transportError, rfl, rfl⟩
  have hex := h.2 hall (by norm_num [feedC5])
  have hlen : (fetch_feed feedC5 attemptsC5).1.length = 2 := by
    rw [hex.2]
    rfl
  refine ⟨?_, hex.1, hlen⟩
  rw [h.1 0 (by rw [hlen]; omega)]
  norm_num [feedC5]

/-! ### storage.py: sidecar metadata and `StorageWriter.write` -/

/-- JSON values as produced for the `.meta` sidecar. -/
inductive JsonVal where
  | str (s : String)
  | num (q : ℚ)
  | null
  | obj (fields : List (String × JsonVal))

def optStr : Option String → JsonVal
  | some s => .str s
  | none => .null

/-- `generate_metadata` (storage.py lines 83-106), as the ordered
key/value mapping `json.dumps` serialises.  The `headers` entry keeps
exactly the pairs whose lowercased key is `etag`, `last-modified`,
`content-type` or `content-length`, with the original key. -/
def generate_metadata (feed : FeedConfig) (result : FetchResult) :
    List (String × JsonVal) :=
  [("feed_id", .str feed.id),
   ("url", .str feed.url),
   ("fetch_timestamp", .str result.fetch_timestamp.isoformat),
   ("duration_ms", .num result.duration_ms),
   ("response_code", .num result.status_code),
   ("content_length", .num result.content_length),
   ("content_type", optStr result.content_type),
   ("headers", .obj ((result.headers.filter (fun kv =>
      ["etag", "last-modified", "content-type", "content-length"].contains
        kv.1.toLower)).map (fun kv => (kv.1, JsonVal.str kv.2))))]

/-- The feed fixture of test_storage.py (`feed_config`). -/
def feedC6 : FeedConfig :=
  { id := "test-agency-vehicle-positions"
  , name := "Test Agency Vehicle Positions"
  , url := "https://example.com/feed.pb"
  , feed_type := .vehicle_positions
  , agency_id := "test-agency"
  , agency_name := "Test Agency" }

/-- The fetch-result fixture of test_storage.py (`fetch_result`). -/
def resultC6 : FetchResult :=
  { content := [1, 2, 3]
  , headers := [("content-type", "application/x-protobuf"),
                ("etag", "abc123"),
                ("last-modified", "Wed, 15 Jan 2025 14:19:58 GMT"),
                ("x-custom-header", "should-be-filtered")]
  , status_code := 200
  , fetch_timestamp := ⟨2025, 1, 15, 14, 20, 30, 123000⟩
  , duration_ms := 245
  , content_length := 16 }

/-- C6: the sidecar JSON produced by `generate_metadata` holds exactly
the keys feed_id, url, fetch_timestamp, duration_ms, response_code,
content_length, content_type, headers — the claim (and the tests in
test_storage.py, `test_basic_metadata`) additionally require agency_id,
agency_name, system_id and system_name, which the code never emits. -/
theorem c6_generate_metadata :
    (generate_metadata feedC6 resultC6).map Prod.fst =
      ["feed_id", "url", "fetch_timestamp", "duration_ms", "response_code",
       "content_length", "content_type", "headers"]
    ∧ "agency_id" ∉ (generate_metadata feedC6 resultC6).map Prod.fst
    ∧ "agency_name" ∉ (generate_metadata feedC6 resultC6).map Prod.fst
    ∧ "system_id" ∉ (generate_metadata feedC6 resultC6).map Prod.fst
    ∧ "system_name" ∉ (generate_metadata feedC6 resultC6).map Prod.fst := by
  refine ⟨rfl, ?_, ?_, ?_, ?_⟩ <;> decide

/-- What one stored object holds: the payload bytes, or the sidecar
metadata (the store keeps the structured value whose `json.dumps`
serialisation is uploaded). -/
inductive BlobData where
  | bytes (bs : List Nat)
  | json (v : List (String × JsonVal))

/-- The blob store: object name to content, in upload order. -/
abbrev Store := List (String × BlobData)

/-- `StorageWriter.write` (storage.py lines 142-190) over an explicit
store, with injectable upload faults: `uploadOk n` tells whether the
n-th `storage.upload` call of this invocation succeeds (a failing
upload writes nothing: object creation in the blob store is atomic per
object).  The content upload happens first, the `.meta` upload second
and only when `write_metadata` is set.  Both object names come from
`generate_storage_path`, whose `AttributeError` (claim C1) propagates
out of `write` before any upload. -/
def StorageWriter.write (write_metadata : Bool) (uploadOk : Nat → Bool)
    (store : Store) (feed : FeedConfig) (result : FetchResult) :
    Store × Except PyError String :=
  match generate_storage_path feed result.fetch_timestamp "pb" with
  | .error e => (store, .error e)
  | .ok content_path =>
      if uploadOk 0 then
        let store1 := store ++ [(content_path, .bytes result.content)]
        if write_metadata then
          match generate_storage_path feed result.fetch_timestamp "meta" with
          | .error e => (store1, .error e)
          | .ok metadata_path =>
              if uploadOk 1 then
                (store1 ++ [(metadata_path, .json (generate_metadata feed result))],
                 .ok content_path)
              else (store1, .error .uploadError)
        else (store1, .ok content_path)
      else (store, .error .uploadError)

theorem generate_storage_path_raises (feed : FeedConfig) (timestamp : Datetime)
    (extension : String) :
    generate_storage_path feed timestamp extension =
      .error (.attributeError "query_params") := rfl

/-- C3: after `StorageWriter.write` terminates — normally or by raising
— the store never holds one of the payload/sidecar pair without the
other.  On this code the property holds degenerately: the first
statement of `write` already raises `AttributeError` out of
`generate_storage_path` (see C1) before either upload, so for every
fault pattern the store is returned unchanged, no object of this write
exists, and in particular never exactly one of the pair. -/
theorem c3_write_pair_all_or_nothing (write_metadata : Bool)
    (uploadOk : Nat → Bool) (store : Store) (feed : FeedConfig)
    (result : FetchResult) :
    (StorageWriter.write write_metadata uploadOk store feed result).1 = store
    ∧ (StorageWriter.write write_metadata uploadOk store feed result).2 =
      .error (.attributeError "query_params") := by
  unfold StorageWriter.write
  rw [generate_storage_path_raises]
  exact ⟨rfl, rfl⟩

/-! ### scheduler.py and \_\_main\_\_.py: the per-tick pipeline call

`create_fetch_job` (\_\_main\_\_.py lines 47-169) returns
`async def fetch_job(feed: FeedConfig) -> None` — a coroutine function
with exactly one positional parameter and no defaults or varargs.  The
scheduler invokes the job as `self._fetch_job(feed, scheduled_time)`
(scheduler.py line 43 inside `_execute_scheduled_fetch`, line 192
inside `run_once`) — two positional arguments.  Python raises
`TypeError` before entering the body when the argument count does not
match the signature; the model below carries the arity and checks it at
each call. -/

inductive PipelineEvent where
  | fetchExecuted
  | writeExecuted
  deriving DecidableEq

inductive PyArg where
  | feedArg (f : FeedConfig)
  | datetimeArg (t : Datetime)

/-- A Python async function of fixed positional arity. -/
structure PyAsyncFunc where
  arity : Nat
  body : List PyArg → List PipelineEvent

/-- Python positional call semantics for a fixed-arity function:
a mismatched argument count raises `TypeError` without running the
body. -/
def pyCall (f : PyAsyncFunc) (args : List PyArg) :
    Except PyError (List PipelineEvent) :=
  if args.length = f.arity then .ok (f.body args)
  else .error (.typeError "positional argument count mismatch")

/-- The retry wrapper around `storage_writer.write`
(\_\_main\_\_.py lines 99-108): `stop_after_attempt(3)`,
`wait_exponential(multiplier=1.0, max=10.0)`, retry on network/IO
errors, `reraise=True`; `uploadAttempts k` is the outcome of the k-th
`storage_writer.write` call. -/
def upload_with_retry (retryableUploadErr : PyError → Bool)
    (uploadAttempts : Nat → Except PyError String) :
    List ℚ × Except PyError String :=
  runRetryingAux (wait_exponential 1 10) retryableUploadErr uploadAttempts 3 1

/-- `create_fetch_job` (\_\_main\_\_.py lines 47-169).  The returned
job takes the single parameter `feed`; its body fetches and, on fetch
success, runs the blob write under `upload_with_retry`.  Every
exception of the body is caught and recorded (lines 120-167), so a call
that enters the body never raises.  The fetch and upload outcomes are
oracles; metric and log emission is not modelled. -/
def create_fetch_job (fetchOutcome : Except FetchErr FetchResult)
    (retryableUploadErr : PyError → Bool)
    (uploadAttempts : Nat → Except PyError String) : PyAsyncFunc :=
  { arity := 1
  , body := fun _args =>
      match fetchOutcome with
      | .error _ => [.fetchExecuted]
      | .ok _ =>
          match (upload_with_retry retryableUploadErr uploadAttempts).2 with
          | .ok _ => [.fetchExecuted, .writeExecuted]
          | .error _ => [.fetchExecuted, .writeExecuted] }

/-- `FeedScheduler.run_once` (scheduler.py lines 185-192):
`await self._fetch_job(feed, datetime.now(UTC))`. -/
def FeedScheduler.run_once (fetch_job : PyAsyncFunc) (feed : FeedConfig)
    (now : Datetime) : Except PyError (List PipelineEvent) :=
  pyCall fetch_job [.feedArg feed, .datetimeArg now]

/-- `_execute_scheduled_fetch` (scheduler.py lines 24-43), after the
registry and feed lookups succeed:
`await scheduler._fetch_job(feed, scheduled_time)`. -/
def _execute_scheduled_fetch (fetch_job : PyAsyncFunc) (feed : FeedConfig)
    (scheduled_time : Datetime) : Except PyError (List PipelineEvent) :=
  pyCall fetch_job [.feedArg feed, .datetimeArg scheduled_time]

def feedC2 : FeedConfig :=
  { id := "tick-vehicle-positions", name := "Tick", url := "https://tick.example.com/rt"
  , feed_type := .vehicle_positions, agency_id := "tick", agency_name := "Tick" }

def fetchResultC2 : FetchResult :=
  { content := [10], headers := [], status_code := 200
  , fetch_timestamp := ⟨2025, 1, 15, 14, 20, 30, 0⟩
  , duration_ms := 100, content_length := 1 }

/-- The fetch job built by `create_fetch_job` for a tick whose fetch
would succeed and whose first upload would succeed. -/
def jobC2 : PyAsyncFunc :=
  create_fetch_job (.ok fetchResultC2) (fun _ => true)
    (fun _ => .ok "vehicle_positions/date=2025-01-15/x")

/-- C2: the claim says an admitted tick dispatched through
`_execute_scheduled_fetch` or `FeedScheduler.run_once` runs the fetch
and, on success, the write, completing without raising.  On the code
both dispatch paths pass two positional arguments
`(feed, scheduled_time)` to the one-parameter job that
`create_fetch_job` returns, so the call raises `TypeError` before any
fetch — contradicting test_scheduler.py
(`test_run_once_executes_job`, which installs a one-argument job and
expects it to run) and test_main.py (which always calls the job with
one argument).  Called with one argument, as the tests do, the job runs
the fetch and the write. -/
theorem c2_tick_dispatch :
    FeedScheduler.run_once jobC2 feedC2 ts0 =
      .error (.typeError "positional argument count mismatch")
    ∧ _execute_scheduled_fetch jobC2 feedC2 ts0 =
      .error (.typeError "positional argument count mismatch")
    ∧ pyCall jobC2 [.feedArg feedC2] =
      .ok [.fetchExecuted, .writeExecuted] :=
  ⟨rfl, rfl, rfl⟩

/-! ### compaction.py: GTFS-Realtime message model

The decoded `FeedMessage` as the extractors observe it.  A field the
code queries with `HasField` is an `Option`; a field the code reads
directly is a plain value carrying the protobuf default when unset
(`""` for strings, `0` for numbers).  Float-valued protobuf fields are
modelled as rationals — no claim inspects their arithmetic.  Enum codes
are the wire numerals. -/

structure Translation where
  text : String := ""
  language : String := ""

structure TranslatedString where
  translation : List Translation := []

structure TripDescriptor where
  trip_id : String := ""
  route_id : String := ""
  direction_id : Option Nat := none
  start_time : String := ""
  start_date : String := ""
  schedule_relationship : Nat := 0

structure VehicleDescriptor where
  id : String := ""
  label : String := ""
  license_plate : String := ""

structure Position where
  latitude : ℚ := 0
  longitude : ℚ := 0
  bearing : Option ℚ := none
  odometer : Option ℚ := none
  speed : Option ℚ := none

structure VehiclePosition where
  trip : Option TripDescriptor := none
  vehicle : Option VehicleDescriptor := none
  position : Option Position := none
  current_stop_sequence : Option Nat := none
  stop_id : Option String := none
  current_status : Option Nat := none
  timestamp : Option Nat := none
  congestion_level : Option Nat := none
  occupancy_status : Option Nat := none
  occupancy_percentage : Option Nat := none

structure StopTimeEvent where
  delay : Option Int := none
  time : Option Int := none
  uncertainty : Option Int := none

structure StopTimeUpdate where
  stop_sequence : Option Nat := none
  stop_id : Option String := none
  arrival : Option StopTimeEvent := none
  departure : Option StopTimeEvent := none
  schedule_relationship : Option Nat := none

structure TripUpdate where
  trip : Option TripDescriptor := none
  vehicle : Option VehicleDescriptor := none
  timestamp : Option Nat := none
  delay : Option Int := none
  stop_time_update : List StopTimeUpdate := []

structure TimeRange where
  start : Option Nat := none
  end_ : Option Nat := none

structure EntitySelector where
  agency_id : Option String := none
  route_id : Option String := none
  route_type : Option Nat := none
  stop_id : Option String := none
  trip : Option TripDescriptor := none

structure Alert where
  active_period : List TimeRange := []
  informed_entity : List EntitySelector := []
  cause : Option Nat := none
  effect : Option Nat := none
  severity_level : Option Nat := none
  header_text : Option TranslatedString := none
  description_text : Option TranslatedString := none
  url : Option TranslatedString := none

structure FeedHeader where
  timestamp : Nat := 0

structure FeedEntity where
  id : String := ""
  vehicle : Option VehiclePosition := none
  trip_update : Option TripUpdate := none
  alert : Option Alert := none

structure FeedMessage where
  header : FeedHeader := {}
  entity : List FeedEntity := []

/-- `feed.header.timestamp if feed.header.timestamp else None`
(truthiness of a numeric default). -/
def headerTimestamp (msg : FeedMessage) : Option Nat :=
  if msg.header.timestamp ≠ 0 then some msg.header.timestamp else none

/-! ### compaction.py: row extraction (lines 137-405) -/

structure VehiclePositionRow where
  source_file : String
  feed_url : String
  feed_timestamp : Option Nat
  entity_id : String
  trip_id : Option String
  route_id : Option String
  direction_id : Option Nat
  start_time : Option String
  start_date : Option String
  schedule_relationship : Option Nat
  vehicle_id : Option String
  vehicle_label : Option String
  license_plate : Option String
  latitude : Option ℚ
  longitude : Option ℚ
  bearing : Option ℚ
  odometer : Option ℚ
  speed : Option ℚ
  current_stop_sequence : Option Nat
  stop_id : Option String
  current_status : Option Nat
  timestamp : Option Nat
  congestion_level : Option Nat
  occupancy_status : Option Nat
  occupancy_percentage : Option Nat

/-- The row built for one entity whose `vehicle` oneof is populated
(compaction.py lines 149-206). -/
def vehiclePositionRow (source_file feed_url : String)
    (feed_timestamp : Option Nat) (entity : FeedEntity)
    (vp : VehiclePosition) : VehiclePositionRow :=
  { source_file := source_file
  , feed_url := feed_url
  , feed_timestamp := feed_timestamp
  , entity_id := entity.id
  , trip_id := vp.trip.map (fun t => t.trip_id)
  , route_id := vp.trip.map (fun t => t.route_id)
  , direction_id := vp.trip.bind (fun t => t.direction_id)
  , start_time := vp.trip.map (fun t => t.start_time)
  , start_date := vp.trip.map (fun t => t.start_date)
  , schedule_relationship := vp.trip.map (fun t => t.schedule_relationship)
  , vehicle_id := vp.vehicle.map (fun v => v.id)
  , vehicle_label := vp.vehicle.map (fun v => v.label)
  , license_plate := vp.vehicle.map (fun v => v.license_plate)
  , latitude := vp.position.map (fun p => p.latitude)
  , longitude := vp.position.map (fun p => p.longitude)
  , bearing := vp.position.bind (fun p => p.bearing)
  , odometer := vp.position.bind (fun p => p.odometer)
  , speed := vp.position.bind (fun p => p.speed)
  , current_stop_sequence := vp.current_stop_sequence
  , stop_id := vp.stop_id
  , current_status := vp.current_status
  , timestamp := vp.timestamp
  , congestion_level := vp.congestion_level
  , occupancy_status := vp.occupancy_status
  , occupancy_percentage := vp.occupancy_percentage }

/-- `extract_vehicle_positions` (compaction.py lines 137-206): one row
per entity whose `vehicle` field is set. -/
def extract_vehicle_positions (msg : FeedMessage)
    (source_file feed_url : String) : List VehiclePositionRow :=
  msg.entity.filterMap (fun entity =>
    entity.vehicle.map
      (vehiclePositionRow source_file feed_url (headerTimestamp msg) entity))

structure TripUpdateRow where
  source_file : String
  feed_url : String
  feed_timestamp : Option Nat
  entity_id : String
  trip_id : Option String
  route_id : Option String
  direction_id : Option Nat
  start_time : Option String
  start_date : Option String
  schedule_relationship : Option Nat
  vehicle_id : Option String
  vehicle_label : Option String
  trip_timestamp : Option Nat
  trip_delay : Option Int
  stop_sequence : Option Nat
  stop_id : Option String
  arrival_delay : Option Int
  arrival_time : Option Int
  arrival_uncertainty : Option Int
  departure_delay : Option Int
  departure_time : Option Int
  departure_uncertainty : Option Int
  stop_schedule_relationship : Option Nat

/-- The `base_record` of one trip-update entity (compaction.py lines
222-247) merged with the stop-time-update columns (lines 249-314);
`stu = none` is the empty-list branch that nulls the stop columns. -/
def tripUpdateRow (source_file feed_url : String)
    (feed_timestamp : Option Nat) (entity_id : String) (tu : TripUpdate)
    (stu : Option StopTimeUpdate) : TripUpdateRow :=
  { source_file := source_file
  , feed_url := feed_url
  , feed_timestamp := feed_timestamp
  , entity_id := entity_id
  , trip_id := tu.trip.map (fun t => t.trip_id)
  , route_id := tu.trip.map (fun t => t.route_id)
  , direction_id := tu.trip.bind (fun t => t.direction_id)
  , start_time := tu.trip.map (fun t => t.start_time)
  , start_date := tu.trip.map (fun t => t.start_date)
  , schedule_relationship := tu.trip.map (fun t => t.schedule_relationship)
  , vehicle_id := tu.vehicle.map (fun v => v.id)
  , vehicle_label := tu.vehicle.map (fun v => v.label)
  , trip_timestamp := tu.timestamp
  , trip_delay := tu.delay
  , stop_sequence := stu.bind (fun s => s.stop_sequence)
  , stop_id := stu.bind (fun s => s.stop_id)
  , arrival_delay := stu.bind (fun s => s.arrival.bind (fun a => a.delay))
  , arrival_time := stu.bind (fun s => s.arrival.bind (fun a => a.time))
  , arrival_uncertainty := stu.bind (fun s => s.arrival.bind (fun a => a.uncertainty))
  , departure_delay := stu.bind (fun s => s.departure.bind (fun d => d.delay))
  , departure_time := stu.bind (fun s => s.departure.bind (fun d => d.time))
  , departure_uncertainty := stu.bind (fun s => s.departure.bind (fun d => d.uncertainty))
  , stop_schedule_relationship := stu.bind (fun s => s.schedule_relationship) }

/-- The rows produced for one entity by `extract_trip_updates`:
nothing when `trip_update` is unset; one row per `stop_time_update`
when the list is nonempty (truthiness, line 250); one null-padded row
when it is empty (lines 298-314). -/
def tripEntityRows (source_file feed_url : String)
    (feed_timestamp : Option Nat) (entity : FeedEntity) : List TripUpdateRow :=
  match entity.trip_update with
  | none => []
  | some tu =>
      match tu.stop_time_update with
      | [] => [tripUpdateRow source_file feed_url feed_timestamp entity.id tu none]
      | stus => stus.map (fun stu =>
          tripUpdateRow source_file feed_url feed_timestamp entity.id tu (some stu))

/-- `extract_trip_updates` (compaction.py lines 209-314). -/
def extract_trip_updates (msg : FeedMessage)
    (source_file feed_url : String) : List TripUpdateRow :=
  msg.entity.flatMap (tripEntityRows source_file feed_url (headerTimestamp msg))

structure ServiceAlertRow where
  source_file : String
  feed_url : String
  feed_timestamp : Option Nat
  entity_id : String
  cause : Option Nat
  effect : Option Nat
  severity_level : Option Nat
  active_period_start : Option Nat
  active_period_end : Option Nat
  header_text : Option String
  description_text : Option String
  url : Option String
  agency_id : Option String
  route_id : Option String
  route_type : Option Nat
  stop_id : Option String
  trip_id : Option String
  trip_route_id : Option String
  trip_direction_id : Option Nat

/-- The inner `get_text` (compaction.py lines 338-341): the first
translation when the repeated field is nonempty. -/
def get_text (translated_string : TranslatedString) : Option String :=
  match translated_string.translation with
  | [] => none
  | tr :: _ => some tr.text

/-- The `base_record` of one alert entity (compaction.py lines 329-369)
merged with the informed-entity columns (lines 371-405); `ie = none`
is the empty-list branch that nulls the entity columns. -/
def serviceAlertRow (source_file feed_url : String)
    (feed_timestamp : Option Nat) (entity_id : String) (alert : Alert)
    (ie : Option EntitySelector) : ServiceAlertRow :=
  { source_file := source_file
  , feed_url := feed_url
  , feed_timestamp := feed_timestamp
  , entity_id := entity_id
  , cause := alert.cause
  , effect := alert.effect
  , severity_level := alert.severity_level
  , active_period_start :=
      match alert.active_period with
      | [] => none
      | ap :: _ => ap.start
  , active_period_end :=
      match alert.active_period with
      | [] => none
      | ap :: _ => ap.end_
  , header_text := alert.header_text.bind get_text
  , description_text := alert.description_text.bind get_text
  , url := alert.url.bind get_text
  , agency_id := ie.bind (fun e => e.agency_id)
  , route_id := ie.bind (fun e => e.route_id)
  , route_type := ie.bind (fun e => e.route_type)
  , stop_id := ie.bind (fun e => e.stop_id)
  , trip_id := ie.bind (fun e => e.trip.map (fun t => t.trip_id))
  , trip_route_id := ie.bind (fun e => e.trip.map (fun t => t.route_id))
  , trip_direction_id := ie.bind (fun e => e.trip.bind (fun t => t.direction_id)) }

/-- The rows produced for one entity by `extract_service_alerts`. -/
def alertEntityRows (source_file feed_url : String)
    (feed_timestamp : Option Nat) (entity : FeedEntity) : List ServiceAlertRow :=
  match entity.alert with
  | none => []
  | some alert =>
      match alert.informed_entity with
      | [] => [serviceAlertRow source_file feed_url feed_timestamp entity.id alert none]
      | ies => ies.map (fun ie =>
          serviceAlertRow source_file feed_url feed_timestamp entity.id alert (some ie))

/-- `extract_service_alerts` (compaction.py lines 317-405). -/
def extract_service_alerts (msg : FeedMessage)
    (source_file feed_url : String) : List ServiceAlertRow :=
  msg.entity.flatMap (alertEntityRows source_file feed_url (headerTimestamp msg))

theorem tripEntityRows_length (source_file feed_url : String)
    (feed_timestamp : Option Nat) (entity : FeedEntity) :
    (tripEntityRows source_file feed_url feed_timestamp entity).length =
      match entity.trip_update with
      | none => 0
      | some tu => max 1 tu.stop_time_update.length := by
  rcases entity with ⟨eid, ev, etu, eal⟩
  unfold tripEntityRows
  cases etu with
  | none => rfl
  | some tu =>
      rcases tu with ⟨t, v, ts, d, stus⟩
      cases stus with
      | nil => rfl
      | cons s rest =>
          simp only [List.length_map, List.length_cons]
          omega

theorem alertEntityRows_length (source_file feed_url : String)
    (feed_timestamp : Option Nat) (entity : FeedEntity) :
    (alertEntityRows source_file feed_url feed_timestamp entity).length =
      match entity.alert with
      | none => 0
      | some alert => max 1 alert.informed_entity.length := by
  rcases entity with ⟨eid, ev, etu, eal⟩
  unfold alertEntityRows
  cases eal with
  | none => rfl
  | some alert =>
      rcases alert with ⟨ap, ies, c, ef, sev, ht, dt, u⟩
      cases ies with
      | nil => rfl
      | cons s rest =>
          simp only [List.length_map, List.length_cons]
          omega

theorem vehicle_rows_count_aux (source_file feed_url : String)
    (feed_timestamp : Option Nat) (es : List FeedEntity) :
    (es.filterMap (fun entity =>
        entity.vehicle.map
          (vehiclePositionRow source_file feed_url feed_timestamp entity))).length =
      (es.filter (fun e => e.vehicle.isSome)).length := by
  induction es with
  | nil => rfl
  | cons e es ih =>
      cases he : e.vehicle with
      | none => simpa [List.filterMap_cons, List.filter_cons, he] using ih
      | some vp => simpa [List.filterMap_cons, List.filter_cons, he] using ih

theorem trip_rows_count_aux (source_file feed_url : String)
    (feed_timestamp : Option Nat) (es : List FeedEntity) :
    (es.flatMap (tripEntityRows source_file feed_url feed_timestamp)).length =
      ((es.filterMap (fun e => e.trip_update)).map
        (fun tu => max 1 tu.stop_time_update.length)).sum := by
  induction es with
  | nil => rfl
  | cons e es ih =>
      rw [List.flatMap_cons, List.length_append, ih, tripEntityRows_length,
        List.filterMap_cons]
      cases he : e.trip_update with
      | none => simp [he]
      | some tu => simp [he]

theorem alert_rows_count_aux (source_file feed_url : String)
    (feed_timestamp : Option Nat) (es : List FeedEntity) :
    (es.flatMap (alertEntityRows source_file feed_url feed_timestamp)).length =
      ((es.filterMap (fun e => e.alert)).map
        (fun a => max 1 a.informed_entity.length)).sum := by
  induction es with
  | nil => rfl
  | cons e es ih =>
      rw [List.flatMap_cons, List.length_append, ih, alertEntityRows_length,
        List.filterMap_cons]
      cases he : e.alert with
      | none => simp [he]
      | some alert => simp [he]

/-- C7: row-count laws of the three extractors — one vehicle row per
entity with `vehicle` set; one trip row per stop_time_update, with one
null-padded row for an empty list; one alert row per informed_entity,
with one null-padded row for an empty list. -/
theorem c7_row_counts (msg : FeedMessage) (source_file feed_url : String) :
    (extract_vehicle_positions msg source_file feed_url).length =
      (msg.entity.filter (fun e => e.vehicle.isSome)).length
    ∧ (extract_trip_updates msg source_file feed_url).length =
      ((msg.entity.filterMap (fun e => e.trip_update)).map
        (fun tu => max 1 tu.stop_time_update.length)).sum
    ∧ (extract_service_alerts msg source_file feed_url).length =
      ((msg.entity.filterMap (fun e => e.alert)).map
        (fun a => max 1 a.informed_entity.length)).sum :=
  ⟨vehicle_rows_count_aux source_file feed_url (headerTimestamp msg) msg.entity,
   trip_rows_count_aux source_file feed_url (headerTimestamp msg) msg.entity,
   alert_rows_count_aux source_file feed_url (headerTimestamp msg) msg.entity⟩

/-! ### compaction.py: `compact_single_feed` (lines 408-522)

The GCS listing, download, `parse_protobuf` and extractor composition
are an oracle: each listed `.pb` object comes with either its extracted
record list or a decode failure (`DecodeError`/`ValueError`, caught at
lines 484-486 and skipped).  The parquet writer is created lazily on
the first nonempty record batch; the output object is uploaded only
when the writer exists. -/

/-- `partition_key_to_url` applied to a whole Python string. -/
def partition_key_to_urlS (key : String) : String :=
  String.mk (partition_key_to_url key.data)

/-- `encode_base64url` applied to a whole Python string. -/
def encode_base64urlS (url : String) : String :=
  String.mk (encode_base64url (utf8Bytes url))

structure CompactOutput where
  files_processed : Nat
  records_written : Nat
  upload : Option String
  deriving DecidableEq

/-- One iteration of the loop at compaction.py lines 468-486, on the
state (writer created?, records_count). -/
def compactStep {α : Type} (acc : Bool × Nat)
    (inp : String × Except Unit (List α)) : Bool × Nat :=
  match inp.2 with
  | .error _ => acc
  | .ok records => if records.isEmpty then acc else (true, acc.2 + records.length)

/-- `compact_single_feed` (compaction.py lines 408-522): `pb_files` is
the sorted listing paired with each file's parse-and-extract outcome;
`upload` is the parquet object key written, when one is. -/
def compact_single_feed {α : Type} (feed_type date feed_key : String)
    (pb_files : List (String × Except Unit (List α))) : CompactOutput :=
  let feed_url := partition_key_to_urlS feed_key
  let feed_url_encoded := encode_base64urlS feed_url
  let output_path := feed_type ++ "/date=" ++ date ++ "/base64url=" ++
    feed_url_encoded ++ "/data.parquet"
  if pb_files.isEmpty then
    { files_processed := 0, records_written := 0, upload := none }
  else
    let res := pb_files.foldl compactStep (false, 0)
    if res.1 then
      { files_processed := pb_files.length, records_written := res.2
      , upload := some output_path }
    else
      { files_processed := pb_files.length, records_written := 0, upload := none }

theorem compactStep_bad_fixed {α : Type} (acc : Bool × Nat)
    (l : List (String × Except Unit (List α)))
    (hbad : ∀ x ∈ l, x.2 = .error () ∨ x.2 = .ok ([] : List α)) :
    l.foldl compactStep acc = acc := by
  induction l generalizing acc with
  | nil => rfl
  | cons x l ih =>
      have hx := hbad x (by simp)
      have hstep : compactStep acc x = acc := by
        rcases hx with hx | hx <;> simp [compactStep, hx]
      rw [List.foldl_cons, hstep]
      exact ih acc (fun y hy => hbad y (by simp [hy]))

/-- C10: when the listing is nonempty but every listed `.pb` object
fails to decode or yields zero records, `compact_single_feed` uploads
nothing and returns `files_processed` equal to the number of listed
objects with `records_written = 0` — the same absent output object as
an empty listing, which returns `(0, 0)` with no upload. -/
theorem c10_compact_all_bad {α : Type} (feed_type date feed_key : String)
    (pb_files : List (String × Except Unit (List α)))
    (hne : pb_files ≠ [])
    (hbad : ∀ x ∈ pb_files, x.2 = .error () ∨ x.2 = .ok ([] : List α)) :
    compact_single_feed feed_type date feed_key pb_files =
      { files_processed := pb_files.length, records_written := 0, upload := none }
    ∧ compact_single_feed feed_type date feed_key
        ([] : List (String × Except Unit (List α))) =
      { files_processed := 0, records_written := 0, upload := none } := by
  constructor
  · unfold compact_single_feed
    rw [if_neg (by simpa [List.isEmpty_iff] using hne)]
    rw [compactStep_bad_fixed (false, 0) pb_files hbad]
    rfl
  · rfl

def pbFilesC10 : List (String × Except Unit (List Nat)) :=
  [("trip_updates/date=2025-01-15/hour=2025-01-15T14:00:00Z/base64url=x/a.pb",
    .error ()),
   ("trip_updates/date=2025-01-15/hour=2025-01-15T15:00:00Z/base64url=x/b.pb",
    .ok [])]

/-- Witness for C10: two listed objects, one malformed and one with no
entities. -/
theorem c10_compact_all_bad_witness :
    compact_single_feed "trip_updates" "2025-01-15" "gtfs.example.com/rt" pbFilesC10 =
      { files_processed := 2, records_written := 0, upload := none } :=
  (c10_compact_all_bad "trip_updates" "2025-01-15" "gtfs.example.com/rt" pbFilesC10
    (by simp [pbFilesC10])
    (by intro x hx
        simp only [pbFilesC10, List.mem_cons, List.not_mem_nil, or_false] at hx
        rcases hx with h | h <;> subst h
        · left
          rfl
        · right
          rfl)).1

/-! ### models.py / config.py: the agencies catalog and its flattening

The hierarchical catalog, the pydantic validation it is subjected to
during `load_agencies_file` (config.py lines 23-44), and
`flatten_agencies` (config.py lines 178-221).  Note for claim C9:
`AgenciesFileConfig` (models.py lines 117-121) declares no validator of
its own — nested models are validated recursively, but nothing anywhere
checks that the generated feed ids are distinct. -/

structure RealtimeFeedConfig where
  feed_type : FeedType
  url : String
  name : Option String := none
  interval_seconds : Option Nat := none
  timeout_seconds : Option Nat := none
  retry : Option RetryConfig := none
  auth : Option AuthConfig := none

structure SystemConfig where
  id : String
  name : String
  schedule_url : Option String := none
  auth : Option AuthConfig := none
  feeds : List RealtimeFeedConfig

structure AgencyConfig where
  id : String
  name : String
  schedule_url : Option String := none
  auth : Option AuthConfig := none
  feeds : Option (List RealtimeFeedConfig) := none
  systems : Option (List SystemConfig) := none

structure IntervalDefaults where
  vehicle_positions : Nat := 20
  trip_updates : Nat := 20
  service_alerts : Nat := 60

/-- `IntervalDefaults.get_interval` (models.py lines 51-54). -/
def IntervalDefaults.get_interval (d : IntervalDefaults) : FeedType → Nat
  | .vehicle_positions => d.vehicle_positions
  | .trip_updates => d.trip_updates
  | .service_alerts => d.service_alerts

structure DefaultsConfig where
  intervals : IntervalDefaults := {}
  timeout_seconds : Nat := 30
  retry : RetryConfig := {}

structure AgenciesFileConfig where
  defaults : DefaultsConfig := {}
  agencies : List AgencyConfig

/-- The id pattern `^[a-z0-9-]+$`. -/
def isKebabId (s : String) : Bool :=
  !s.isEmpty && s.data.all (fun c => c.isLower || c.isDigit || c = '-')

/-- The secret-name pattern `^[a-zA-Z0-9_-]+$`. -/
def isSecretName (s : String) : Bool :=
  !s.isEmpty && s.data.all (fun c => c.isAlpha || c.isDigit || c = '_' || c = '-')

def validAuthConfig (a : AuthConfig) : Bool := isSecretName a.secret_name

/-- `RetryConfig` field bounds (models.py lines 36-41). -/
def validRetryConfig (r : RetryConfig) : Bool :=
  decide (1 ≤ r.max_attempts) && decide (r.max_attempts ≤ 10) &&
    decide (mkRat 1 10 ≤ r.backoff_base) && decide (r.backoff_base ≤ 10) &&
    decide ((1 : ℚ) ≤ r.backoff_max) && decide (r.backoff_max ≤ 60)

def validIntervalDefaults (d : IntervalDefaults) : Bool :=
  decide (5 ≤ d.vehicle_positions) && decide (d.vehicle_positions ≤ 3600) &&
    decide (5 ≤ d.trip_updates) && decide (d.trip_updates ≤ 3600) &&
    decide (5 ≤ d.service_alerts) && decide (d.service_alerts ≤ 3600)

def validDefaultsConfig (d : DefaultsConfig) : Bool :=
  validIntervalDefaults d.intervals &&
    decide (1 ≤ d.timeout_seconds) && decide (d.timeout_seconds ≤ 120) &&
    validRetryConfig d.retry

def validRealtimeFeedConfig (f : RealtimeFeedConfig) : Bool :=
  (match f.interval_seconds with
   | none => true
   | some i => decide (5 ≤ i) && decide (i ≤ 3600)) &&
  (match f.timeout_seconds with
   | none => true
   | some t => decide (1 ≤ t) && decide (t ≤ 120)) &&
  (match f.retry with | none => true | some r => validRetryConfig r) &&
  (match f.auth with | none => true | some a => validAuthConfig a)

/-- `SystemConfig` validation including `validate_has_feeds`
(models.py lines 86-91). -/
def SystemConfig.valid (s : SystemConfig) : Bool :=
  isKebabId s.id && !s.feeds.isEmpty && s.feeds.all validRealtimeFeedConfig &&
    (match s.auth with | none => true | some a => validAuthConfig a)

/-- `AgencyConfig` validation including `validate_feeds_or_systems`
(models.py lines 104-114). -/
def AgencyConfig.valid (a : AgencyConfig) : Bool :=
  let has_feeds := a.feeds.isSome && !(a.feeds.getD []).isEmpty
  let has_systems := a.systems.isSome && !(a.systems.getD []).isEmpty
  isKebabId a.id &&
    ((has_feeds && !has_systems) || (!has_feeds && has_systems)) &&
    (a.feeds.getD []).all validRealtimeFeedConfig &&
    (a.systems.getD []).all SystemConfig.valid &&
    (match a.auth with | none => true | some x => validAuthConfig x)

/-- The whole pydantic validation run by
`AgenciesFileConfig.model_validate` during `load_agencies_file`
(models.py lines 117-121 plus the nested model validators).  Syntactic
URL validation (`HttpUrl`) is external to the claims and not modelled;
it is independent of ids. -/
def AgenciesFileConfig.valid (c : AgenciesFileConfig) : Bool :=
  validDefaultsConfig c.defaults && c.agencies.all AgencyConfig.valid

/-- `feed_type.value.replace("_", "-")` — the pattern is a single
character, so the replacement is a character map. -/
def replaceUnderscoreWithHyphen (s : String) : String :=
  String.mk (s.data.map (fun c => if c = '_' then '-' else c))

/-- `feed_type.value.replace("_", " ")`. -/
def replaceUnderscoreWithSpace (s : String) : String :=
  String.mk (s.data.map (fun c => if c = '_' then ' ' else c))

/-- `str.title()` for ASCII text: a letter starts upper-case exactly
when the previous character is not a letter. -/
def pyTitleAux : Bool → List Char → List Char
  | _, [] => []
  | prevAlpha, c :: cs =>
      (if prevAlpha then c.toLower else c.toUpper) :: pyTitleAux c.isAlpha cs

def pyTitle (s : String) : String := String.mk (pyTitleAux false s.data)

/-- `generate_feed_id` (config.py lines 47-67). -/
def generate_feed_id (agency_id : String) (system_id : Option String)
    (feed_type : FeedType) : String :=
  String.intercalate "-"
    ([agency_id] ++
      (match system_id with
       | some s => if s.isEmpty then [] else [s]
       | none => []) ++
      [replaceUnderscoreWithHyphen feed_type.value])

/-- `generate_feed_name` (config.py lines 70-89). -/
def generate_feed_name (agency_name : String) (system_name : Option String)
    (feed_type : FeedType) : String :=
  let type_name := pyTitle (replaceUnderscoreWithSpace feed_type.value)
  match system_name with
  | some sn =>
      if sn.isEmpty then agency_name ++ " " ++ type_name
      else agency_name ++ " " ++ sn ++ " " ++ type_name
  | none => agency_name ++ " " ++ type_name

/-- `_resolve_auth` (config.py lines 92-102): feed > system > agency. -/
def _resolve_auth (feed_auth system_auth agency_auth : Option AuthConfig) :
    Option AuthConfig :=
  match feed_auth with
  | some a => some a
  | none =>
      match system_auth with
      | some a => some a
      | none => agency_auth

/-- `_flatten_feed` (config.py lines 105-175). -/
def _flatten_feed (feed : RealtimeFeedConfig) (agency : AgencyConfig)
    (system : Option SystemConfig) (defaults : DefaultsConfig) : FeedConfig :=
  let feed_id := generate_feed_id agency.id (system.map (fun s => s.id)) feed.feed_type
  let feed_name :=
    match feed.name with
    | some n =>
        if n.isEmpty then
          generate_feed_name agency.name (system.map (fun s => s.name)) feed.feed_type
        else n
    | none => generate_feed_name agency.name (system.map (fun s => s.name)) feed.feed_type
  let interval :=
    match feed.interval_seconds with
    | some i => i
    | none => defaults.intervals.get_interval feed.feed_type
  let timeout := feed.timeout_seconds.getD defaults.timeout_seconds
  let retry := feed.retry.getD defaults.retry
  let auth := _resolve_auth feed.auth (system.bind (fun s => s.auth)) agency.auth
  let schedule_url :=
    match system.bind (fun s => s.schedule_url) with
    | some u => some u
    | none => agency.schedule_url
  { id := feed_id
  , name := feed_name
  , url := feed.url
  , feed_type := feed.feed_type
  , agency_id := agency.id
  , agency_name := agency.name
  , system_id := system.map (fun s => s.id)
  , system_name := system.map (fun s => s.name)
  , schedule_url := schedule_url
  , interval_seconds := interval
  , timeout_seconds := timeout
  , retry := retry
  , auth := auth }

/-- `flatten_agencies` (config.py lines 178-221); the branch conditions
are the Python truthiness of `agency.systems` / `agency.feeds`. -/
def flatten_agencies (config : AgenciesFileConfig) : List FeedConfig :=
  config.agencies.flatMap (fun agency =>
    if !(agency.systems.getD []).isEmpty then
      (agency.systems.getD []).flatMap (fun system =>
        system.feeds.map (fun feed =>
          _flatten_feed feed agency (some system) config.defaults))
    else if !(agency.feeds.getD []).isEmpty then
      (agency.feeds.getD []).map (fun feed =>
        _flatten_feed feed agency none config.defaults)
    else [])

/-- A catalog whose single agency carries two vehicle_positions feeds
with the given URLs. -/
def dupCatalog (u1 u2 : String) : AgenciesFileConfig :=
  { agencies :=
      [{ id := "metro"
       , name := "Metro"
       , feeds := some
          [{ feed_type := .vehicle_positions, url := u1 },
           { feed_type := .vehicle_positions, url := u2 }] }] }

/-- C9 counterexample: the catalog with two vehicle_positions feeds
under one agency passes every model validator, yet `flatten_agencies`
returns two `FeedConfig` values with the same id
`metro-vehicle-positions` — the flattened id list is not pairwise
distinct and nothing rejects the catalog at startup. -/
theorem c9_counterexample :
    AgenciesFileConfig.valid
      (dupCatalog "https://metro.example.com/vp1" "https://metro.example.com/vp2") = true
    ∧ (flatten_agencies
        (dupCatalog "https://metro.example.com/vp1" "https://metro.example.com/vp2")).map
        (fun fc => fc.id) =
      ["metro-vehicle-positions", "metro-vehicle-positions"]
    ∧ ¬ ((flatten_agencies
        (dupCatalog "https://metro.example.com/vp1" "https://metro.example.com/vp2")).map
        (fun fc => fc.id)).Nodup := by
  refine ⟨by decide, rfl, ?_⟩
  decide

/-- C9 (amended): feed ids are generated as
`agency_id[-system_id]-feed_type`, so they are not guaranteed pairwise
distinct, and a catalog producing a duplicate id is not rejected: for
every pair of URLs, the one-agency catalog with two vehicle_positions
feeds passes the whole model validation while `flatten_agencies`
assigns both feeds the same id. -/
theorem c9_flatten_duplicate_ids (u1 u2 : String) :
    AgenciesFileConfig.valid (dupCatalog u1 u2) = true
    ∧ (flatten_agencies (dupCatalog u1 u2)).map (fun fc => fc.id) =
      [generate_feed_id "metro" none .vehicle_positions,
       generate_feed_id "metro" none .vehicle_positions]
    ∧ ¬ ((flatten_agencies (dupCatalog u1 u2)).map (fun fc => fc.id)).Nodup := by
  refine ⟨by rfl, rfl, ?_⟩
  have h2 : (flatten_agencies (dupCatalog u1 u2)).map (fun fc => fc.id) =
      [generate_feed_id "metro" none .vehicle_positions,
       generate_feed_id "metro" none .vehicle_positions] := rfl
  rw [h2]
  simp [List.nodup_cons]

end GtfsRt
